import Mathlib

/-!
Verification of the REST subsystem (`src/rest.rs`) of the liftinstall repository.

The module is shallowly embedded: the external collaborators (the installer
framework's configuration serializer and default path, the native folder
picker, the embedded asset store, and the OS socket-binding primitive) are
passed in as explicit data, and the request handler `WebService.call` and the
server constructors `with_addr` / `WebServer.new` are translated from the Rust
source.  Rust panics (`unwrap` on an error value) are made explicit in the
result types, and `std::process::exit(0)` becomes the `Outcome.terminate 0`
value.  Byte lengths of Rust strings correspond to `String.utf8ByteSize`.
-/

namespace Rest

/-- An OS-level error message (the payload of `std::io::Error` as far as this
module observes it). -/
abbrev OsError := String

/-- `hyper::Error`, as far as this module observes it: a wrapper around an
I/O error. -/
inductive HyperError where
  | io (e : OsError)
deriving DecidableEq

/-- `std::net::Ipv4Addr`, restricted to the four octets. -/
structure Ipv4Addr where
  o1 : Nat
  o2 : Nat
  o3 : Nat
  o4 : Nat
deriving DecidableEq

/-- `std::net::IpAddr` (only the V4 form is used by this module). -/
inductive IpAddr where
  | V4 (addr : Ipv4Addr)
deriving DecidableEq

/-- `std::net::SocketAddr`: an IP address together with a port. -/
structure SocketAddr where
  ip : IpAddr
  port : Nat
deriving DecidableEq

/-- `nfd::Response`: the result of a native file/folder dialog that ran to
completion. -/
inductive NfdResponse where
  | Okay (path : String)
  | OkayMultiple (paths : List String)
  | Cancel
deriving DecidableEq

/-- The slice of `installer::InstallerFramework` observed by `rest.rs`:
`get_config().to_json_str()` (which may fail) and `get_default_path()`. -/
structure InstallerFramework where
  configJson : Except OsError String
  defaultPath : Option String

/-- The per-request environment: the shared framework, the result of the
(blocking) `nfd::open_pick_folder(None)` call, and the asset store
`assets::file_from_string`, mapping a path to a content type and a payload.
Payload bytes are represented by the string holding their UTF-8 decoding, so
Rust's `len()` is `String.utf8ByteSize`. -/
structure Env where
  framework : InstallerFramework
  pickerResult : Except OsError NfdResponse
  assets : String → Option (String × String)

/-- `hyper::Method`, restricted to the variants relevant to dispatch. -/
inductive Method where
  | Get
  | Options
  | Post
  | Put
  | Delete
  | Head
  | Trace
  | Connect
  | Patch
deriving DecidableEq

/-- A wire-level response as built by `rest.rs`: `Response::new()` yields
status 200, no headers and an empty body; `with_status`, `with_header` and
`with_body` set the corresponding fields. -/
structure Response where
  status : Nat := 200
  contentLength : Option Nat := none
  contentType : Option String := none
  body : String := ""
deriving DecidableEq

/-- The observable outcome of one invocation of the request handler:
a response put on the wire, process termination with an exit code
(`std::process::exit`), or a panic (`unwrap` of an error value). -/
inductive Outcome where
  | response (r : Response)
  | terminate (code : Nat)
  | panic
deriving DecidableEq

/-- One hexadecimal digit (lowercase), as printed by serde_json in
`\uXXXX` escapes. -/
def hexDigit (n : Nat) : Char :=
  if n < 10 then Char.ofNat (48 + n) else Char.ofNat (87 + n)

/-- Four hexadecimal digits. -/
def hex4 (n : Nat) : String :=
  String.mk [hexDigit (n / 4096 % 16), hexDigit (n / 256 % 16),
             hexDigit (n / 16 % 16), hexDigit (n % 16)]

/-- serde_json's escaping of one character inside a JSON string literal. -/
def jsonEscapeChar (c : Char) : String :=
  if c = Char.ofNat 34 then "\\\""
  else if c = Char.ofNat 92 then "\\\\"
  else if c = Char.ofNat 8 then "\\b"
  else if c = Char.ofNat 12 then "\\f"
  else if c = Char.ofNat 10 then "\\n"
  else if c = Char.ofNat 13 then "\\r"
  else if c = Char.ofNat 9 then "\\t"
  else if c.toNat < 32 then "\\u" ++ hex4 c.toNat
  else String.singleton c

/-- serde_json's JSON string literal for `s`. -/
def jsonStringLit (s : String) : String :=
  "\"" ++ String.join (s.data.map jsonEscapeChar) ++ "\""

/-- `serde_json::to_string` of the `FileSelection` struct, whose single
optional field is named `path`. -/
def fileSelectionJson : Option String → String
  | none => "\x7b\"path\":null\x7d"
  | some p => "\x7b\"path\":" ++ jsonStringLit p ++ "\x7d"

/-- Encapsulates JSON as an injectable Javascript script
(`format!("var ... = ...;", field_name, json)` in the source). -/
def enscapsulate_json (field_name : String) (json : String) : String :=
  "var " ++ field_name ++ " = " ++ json ++ ";"

/-- A 200 response carrying `file` as built by the three JSON endpoints:
`ContentLength(file.len())`, `ContentType::json()`, body `file`. -/
def jsonResponse (file : String) : Response :=
  { status := 200
    contentLength := some file.utf8ByteSize
    contentType := some "application/json"
    body := file }

/-- `Response::new().with_status(StatusCode::NotFound)`: 404, no headers,
empty body. -/
def notFound : Response :=
  { status := 404, contentLength := none, contentType := none, body := "" }

/-- Rust's `str::ends_with`, expressed as a suffix test on the character
data (Lean's own `String.endsWith` is extensionally the same but is defined
by well-founded recursion, which does not evaluate inside the kernel). -/
def ends_with (s suffix : String) : Bool :=
  suffix.data.isSuffixOf s.data

/-- `WebService::call`, translated arm by arm from the `match` in the
source (first match wins, method then path). -/
def call (env : Env) (method : Method) (path : String) : Outcome :=
  if method = Method.Get then
    if path = "/api/config" then
      match env.framework.configJson with
      | Except.error _ => Outcome.panic
      | Except.ok json =>
        Outcome.response (jsonResponse (enscapsulate_json "config" json))
    else if path = "/api/file-select" then
      match env.pickerResult with
      | Except.error _ => Outcome.panic
      | Except.ok file_dialog =>
        let file : Option String :=
          match file_dialog with
          | NfdResponse.Okay p => some p
          | _ => none
        Outcome.response (jsonResponse (fileSelectionJson file))
    else if path = "/api/default-path" then
      Outcome.response (jsonResponse (fileSelectionJson env.framework.defaultPath))
    else if path = "/api/exit" then
      Outcome.terminate 0
    else
      let path2 := if ends_with path "/" then path ++ "index.html" else path
      match env.assets path2 with
      | some (content_type, file) =>
        Outcome.response
          { status := 200
            contentLength := some file.utf8ByteSize
            contentType := some content_type
            body := file }
      | none => Outcome.response notFound
  else
    Outcome.response notFound

/-- Encapsulates Hyper's state.  The `JoinHandle` of the serving thread
carries no observable data and is omitted. -/
structure WebServer where
  addr : SocketAddr
deriving DecidableEq

/-- Returns the bound address that the server is running from. -/
def WebServer.get_addr (s : WebServer) : SocketAddr :=
  s.addr

deriving instance DecidableEq for Except

/-- What `with_addr` observably does: either it returns a `Result` value to
the caller, or one of its `unwrap` calls panics. -/
inductive CreationOutcome where
  | returns (r : Except HyperError WebServer)
  | panics
deriving DecidableEq

/-- `WebServer::with_addr`.  `osBind` models `Http::new().bind(&addr, ...)`
followed by `server.local_addr()`: the OS either binds the socket and reports
the concrete local address, or fails with an error.  On a bind failure the
spawned thread's `unwrap` panics, the channel sender is dropped, and the
caller's `receiver.recv().unwrap()` panics in turn; otherwise the bound
address is sent over the channel and an `Ok` handle is returned. -/
def with_addr (framework : InstallerFramework) (addr : SocketAddr)
    (osBind : SocketAddr → Except OsError SocketAddr) : CreationOutcome :=
  match osBind addr with
  | Except.error _ => CreationOutcome.panics
  | Except.ok localAddr => CreationOutcome.returns (Except.ok { addr := localAddr })

/-- `SocketAddr::new(IpAddr::V4(Ipv4Addr::new(127, 0, 0, 1)), 0)`. -/
def localhostAny : SocketAddr :=
  { ip := IpAddr.V4 { o1 := 127, o2 := 0, o3 := 0, o4 := 1 }, port := 0 }

/-- `WebServer::new`: a web server bound to a random port on localhost. -/
def WebServer.new (framework : InstallerFramework)
    (osBind : SocketAddr → Except OsError SocketAddr) : CreationOutcome :=
  with_addr framework localhostAny osBind

/-! ### Concrete environments used to instantiate the theorems -/

/-- A framework with no default path whose configuration serializes fine. -/
def fwTrivial : InstallerFramework :=
  { configJson := Except.ok "\x7b\"a\":1\x7d", defaultPath := none }

/-- An environment whose asset store holds only `/index.html`, whose picker
would report cancellation, and whose framework has no default path. -/
def envAssets : Env :=
  { framework := fwTrivial
    pickerResult := Except.ok NfdResponse.Cancel
    assets := fun p =>
      if p = "/index.html" then some ("text/html", "<html></html>") else none }

/-- An environment in which the folder-picker invocation itself fails. -/
def envPickerError : Env :=
  { framework := fwTrivial
    pickerResult := Except.error "dialog backend unavailable"
    assets := fun _ => none }

/-- An environment in which the folder picker returns a chosen path. -/
def envPickerOkay : Env :=
  { framework := fwTrivial
    pickerResult := Except.ok (NfdResponse.Okay "/home/user/dir")
    assets := fun _ => none }

/-- An environment in which the folder picker returns a multi-selection. -/
def envPickerMulti : Env :=
  { framework := fwTrivial
    pickerResult := Except.ok (NfdResponse.OkayMultiple ["/a", "/b"])
    assets := fun _ => none }

/-- A bind primitive that always fails (port in use). -/
def osBindFail : SocketAddr → Except OsError SocketAddr :=
  fun _ => Except.error "address in use"

/-- The concrete address an always-succeeding bind primitive reports. -/
def boundConcrete : SocketAddr :=
  { ip := IpAddr.V4 { o1 := 127, o2 := 0, o3 := 0, o4 := 1 }, port := 54321 }

/-- A bind primitive that always succeeds, reporting `boundConcrete`. -/
def osBindOk : SocketAddr → Except OsError SocketAddr :=
  fun _ => Except.ok boundConcrete

/-! ### Theorems -/

/-- C1: for every configuration whose JSON serialization is the string `j`,
`GET /api/config` produces a 200 response with content type
`application/json` whose body is exactly `var config = ` ++ `j` ++ `;`,
with content length the body's byte length. -/
theorem api_config_serves_var_assignment (env : Env) (j : String)
    (h : env.framework.configJson = Except.ok j) :
    call env Method.Get "/api/config" =
      Outcome.response
        { status := 200
          contentLength := some ("var config = " ++ j ++ ";").utf8ByteSize
          contentType := some "application/json"
          body := "var config = " ++ j ++ ";" } := by
  have hj : enscapsulate_json "config" j = "var config = " ++ j ++ ";" := by
    unfold enscapsulate_json
    rw [show ("var " ++ "config" ++ " = " : String) = "var config = " from rfl]
  unfold call
  rw [h]
  simp [jsonResponse, hj]

/-- C1 witness: the theorem instantiated at a concrete environment. -/
theorem api_config_serves_var_assignment_witness :
    call envAssets Method.Get "/api/config" =
      Outcome.response
        { status := 200
          contentLength :=
            some ("var config = " ++ "\x7b\"a\":1\x7d" ++ ";").utf8ByteSize
          contentType := some "application/json"
          body := "var config = " ++ "\x7b\"a\":1\x7d" ++ ";" } :=
  api_config_serves_var_assignment envAssets "\x7b\"a\":1\x7d" rfl

/-- C7: `GET /api/exit` yields process termination with exit code 0; no
response is constructed on this path, whatever the environment. -/
theorem api_exit_terminates (env : Env) :
    call env Method.Get "/api/exit" = Outcome.terminate 0 := rfl

/-- C8: `GET /api/default-path` mirrors the framework's configured default
exactly: the body is the `FileSelection` serialization of that default,
which is the JSON object with a null `path` when no default is configured
and with the JSON string literal of `d` when the default is `d`. -/
theorem api_default_path_mirrors_default (env : Env) :
    call env Method.Get "/api/default-path" =
      Outcome.response (jsonResponse (fileSelectionJson env.framework.defaultPath)) ∧
    fileSelectionJson none = "\x7b\"path\":null\x7d" ∧
    ∀ d, fileSelectionJson (some d) = "\x7b\"path\":" ++ jsonStringLit d ++ "\x7d" :=
  ⟨rfl, rfl, fun _ => rfl⟩

/-- C2 counterexample: when the native folder-picker invocation itself fails,
the handler panics on `unwrap` — it does not produce the 200 response with
body `\x7b"path":null\x7d` the claim promises, so a picker failure does crash
the handler. -/
theorem file_select_error_panics_cex :
    call envPickerError Method.Get "/api/file-select" = Outcome.panic ∧
    Outcome.panic ≠
      Outcome.response (jsonResponse (fileSelectionJson none)) :=
  ⟨rfl, by decide⟩

/-- C2 (amended): when the folder-picker invocation returns a result, the
handler produces a 200 JSON response whose body has the chosen path for
`Okay` and null for `Cancel` and `OkayMultiple`; when the invocation itself
errs, the handler panics (the error is not recovered into a response). -/
theorem file_select_behavior (env : Env) :
    (∀ d, env.pickerResult = Except.ok d →
      call env Method.Get "/api/file-select" =
        Outcome.response (jsonResponse (fileSelectionJson
          (match d with
           | NfdResponse.Okay p => some p
           | _ => none)))) ∧
    (∀ e, env.pickerResult = Except.error e →
      call env Method.Get "/api/file-select" = Outcome.panic) := by
  constructor
  · intro d hd
    unfold call
    rw [show env.pickerResult = Except.ok d from hd]
    rfl
  · intro e he
    unfold call
    rw [show env.pickerResult = Except.error e from he]
    rfl

/-- C2 witness: the amended theorem at a concrete environment in which the
picker returns a chosen path. -/
theorem file_select_behavior_witness :
    call envPickerOkay Method.Get "/api/file-select" =
      Outcome.response (jsonResponse (fileSelectionJson (some "/home/user/dir"))) :=
  (file_select_behavior envPickerOkay).1 (NfdResponse.Okay "/home/user/dir") rfl

/-- C10: a multi-selection result from the folder picker is mapped to the
same body as a cancellation: the JSON object with a null path. -/
theorem file_select_multi_is_null (env : Env) (ps : List String)
    (h : env.pickerResult = Except.ok (NfdResponse.OkayMultiple ps)) :
    call env Method.Get "/api/file-select" =
      Outcome.response (jsonResponse (fileSelectionJson none)) := by
  unfold call
  rw [h]
  rfl

/-- C10 witness: the theorem at a concrete two-folder selection. -/
theorem file_select_multi_is_null_witness :
    call envPickerMulti Method.Get "/api/file-select" =
      Outcome.response (jsonResponse (fileSelectionJson none)) :=
  file_select_multi_is_null envPickerMulti ["/a", "/b"] rfl

/-- C3 counterexample: with a failing bind primitive, `with_addr` panics; it
does not return an `Err` carrying the underlying OS error to the caller. -/
theorem with_addr_bind_failure_cex :
    with_addr fwTrivial localhostAny osBindFail = CreationOutcome.panics ∧
    with_addr fwTrivial localhostAny osBindFail ≠
      CreationOutcome.returns (Except.error (HyperError.io "address in use")) :=
  ⟨rfl, by decide⟩

/-- C3 (amended): when binding the requested address fails, `with_addr`
panics (the spawned thread's `unwrap` fails, the channel sender is dropped,
and the caller's `recv().unwrap()` panics), so no handle — and no error
value — is returned to the caller; `new` delegates to `with_addr` at
localhost port 0. -/
theorem with_addr_bind_failure_panics (fw : InstallerFramework)
    (osBind : SocketAddr → Except OsError SocketAddr) :
    (∀ addr e, osBind addr = Except.error e →
      with_addr fw addr osBind = CreationOutcome.panics) ∧
    WebServer.new fw osBind = with_addr fw localhostAny osBind := by
  refine ⟨fun addr e he => ?_, rfl⟩
  unfold with_addr
  rw [he]

/-- C3 witness: the amended theorem at a concrete failing bind. -/
theorem with_addr_bind_failure_panics_witness :
    with_addr fwTrivial localhostAny osBindFail = CreationOutcome.panics :=
  (with_addr_bind_failure_panics fwTrivial osBindFail).1 localhostAny
    "address in use" rfl

/-- C4: when the OS reports `bound` as the actually-bound address, the
creation call returns (with no panic) exactly the handle holding `bound`,
whose pure accessor `get_addr` yields `bound` — not the requested address —
so under the OS guarantees (a port-0 request binds a nonzero port; a fixed
available port binds itself) the reported port is nonzero, respectively the
requested one. -/
theorem get_addr_reports_bound_address (fw : InstallerFramework)
    (addr bound : SocketAddr) (osBind : SocketAddr → Except OsError SocketAddr)
    (h : osBind addr = Except.ok bound)
    (hzero : addr.port = 0 → bound.port ≠ 0)
    (hfixed : addr.port ≠ 0 → bound.port = addr.port) :
    with_addr fw addr osBind =
      CreationOutcome.returns (Except.ok { addr := bound }) ∧
    WebServer.get_addr { addr := bound } = bound ∧
    (addr.port = 0 → (WebServer.get_addr { addr := bound }).port ≠ 0) ∧
    (addr.port ≠ 0 → (WebServer.get_addr { addr := bound }).port = addr.port) := by
  refine ⟨?_, rfl, hzero, hfixed⟩
  unfold with_addr
  rw [h]

/-- C4 witness: the theorem at a concrete bind primitive that reports port
54321 for the port-0 localhost request. -/
theorem get_addr_reports_bound_address_witness :
    with_addr fwTrivial localhostAny osBindOk =
      CreationOutcome.returns (Except.ok { addr := boundConcrete }) ∧
    WebServer.get_addr { addr := boundConcrete } = boundConcrete ∧
    (localhostAny.port = 0 →
      (WebServer.get_addr { addr := boundConcrete }).port ≠ 0) ∧
    (localhostAny.port ≠ 0 →
      (WebServer.get_addr { addr := boundConcrete }).port = localhostAny.port) :=
  get_addr_reports_bound_address fwTrivial localhostAny boundConcrete osBindOk
    rfl (fun _ => by decide) (fun hne => absurd rfl hne)

/-- C5: on any GET whose path matches none of the four API routes, the
handler queries the asset store at the path extended by `index.html` when the
path ends with `/` (and at the bare path otherwise); a hit yields a 200
response with the asset's declared content type, content length and bytes,
and a miss yields exactly a 404 with an empty body and no headers. -/
theorem static_handler_behavior (env : Env) (path : String)
    (h1 : path ≠ "/api/config") (h2 : path ≠ "/api/file-select")
    (h3 : path ≠ "/api/default-path") (h4 : path ≠ "/api/exit") :
    call env Method.Get path =
      match env.assets
          (if ends_with path "/" then path ++ "index.html" else path) with
      | some (ct, file) =>
        Outcome.response
          { status := 200
            contentLength := some file.utf8ByteSize
            contentType := some ct
            body := file }
      | none =>
        Outcome.response
          { status := 404, contentLength := none, contentType := none, body := "" } := by
  unfold call
  simp only [if_pos rfl, if_neg h1, if_neg h2, if_neg h3, if_neg h4]
  rfl

/-- C5 witness: `GET /` against a store holding `/index.html` resolves the
extended path and serves the asset. -/
theorem static_handler_behavior_witness :
    call envAssets Method.Get "/" =
      Outcome.response
        { status := 200
          contentLength := some ("<html></html>" : String).utf8ByteSize
          contentType := some "text/html"
          body := "<html></html>" } := by
  rw [static_handler_behavior envAssets "/"
    (by decide) (by decide) (by decide) (by decide)]
  decide

/-- C6: every non-GET request, on every path, yields a 404 with an empty
body, and the outcome is the same in any two environments — so neither the
installer framework nor the asset store is consulted. -/
theorem non_get_is_404 (env env2 : Env) (method : Method) (path : String)
    (h : method ≠ Method.Get) :
    call env method path = Outcome.response notFound ∧
    call env method path = call env2 method path := by
  unfold call
  rw [if_neg h, if_neg h]
  exact ⟨rfl, rfl⟩

/-- C6 witness: a POST to `/api/config` in two different environments. -/
theorem non_get_is_404_witness :
    call envAssets Method.Post "/api/config" = Outcome.response notFound ∧
    call envAssets Method.Post "/api/config" =
      call envPickerError Method.Post "/api/config" :=
  non_get_is_404 envAssets envPickerError Method.Post "/api/config" (by decide)

/-- C9: every response the handler actually emits either carries no
Content-Length header and an empty body (the 404 case) or a Content-Length
equal to the byte length of its fully materialized body (the 200 cases). -/
theorem content_length_matches_body (env : Env) (method : Method)
    (path : String) (r : Response)
    (h : call env method path = Outcome.response r) :
    (r.contentLength = none ∧ r.body = "") ∨
    r.contentLength = some r.body.utf8ByteSize := by
  unfold call at h
  repeat' split at h
  all_goals try simp only [] at h
  repeat' split at h
  all_goals
    first
      | (injection h with h
         subst h
         simp [jsonResponse, notFound])
      | injection h

/-- C9 witness: the theorem applied to the concrete response served for
`GET /api/default-path`. -/
theorem content_length_matches_body_witness :
    ((jsonResponse (fileSelectionJson none)).contentLength = none ∧
      (jsonResponse (fileSelectionJson none)).body = "") ∨
    (jsonResponse (fileSelectionJson none)).contentLength =
      some (jsonResponse (fileSelectionJson none)).body.utf8ByteSize :=
  content_length_matches_body envAssets Method.Get "/api/default-path"
    (jsonResponse (fileSelectionJson none)) rfl

end Rest
